import Mathlib

/-!
Shallow embedding of the CSS layout-mode classifier from
`src/entrypoints/devtools-pane/App.svelte` (`evaluateCssLayoutMode`),
together with theorems settling the specified properties.

The classifier reads three computed-style properties (`position`,
`display`, `float`) from a string-to-string mapping and returns a
layout verdict `{mode, variant, details}` by a first-match cascade.
JavaScript property access on a missing key yields `undefined`, which we
model as `Option.none`; JavaScript truthiness of a string-or-undefined
value (`undefined` and `""` are falsy) and the `a || b` default operator
are modelled explicitly below.
-/

/-- A computed-style snapshot: a mapping from CSS property names to their
resolved string values, modelled as an association list (first binding
wins, matching JavaScript object key lookup on a well-formed record). -/
def ComputedStyleSnapshot : Type := List (String × String)

/-- JavaScript property access `styles[prop]`: `some v` when the key is
bound to `v`, `none` for `undefined` when the key is absent. -/
def getStyle (styles : ComputedStyleSnapshot) (prop : String) : Option String :=
  (styles.find? (fun e => e.1 == prop)).map (fun e => e.2)

/-- JavaScript truthiness of a `string | undefined` value: `undefined`
and the empty string are falsy, every other string is truthy. -/
def truthyStr : Option String → Bool
  | none => false
  | some s => !(s == "")

/-- JavaScript `a || b` where `a : string | undefined`: yields `b` when
`a` is `undefined` or the empty string, otherwise `a`. -/
def jsOrDefault (a : Option String) (b : String) : String :=
  match a with
  | none => b
  | some s => if s == "" then b else s

/-- The verdict returned by the classifier: layout mode, variant and a
human-readable description. -/
structure LayoutVerdict where
  mode : String
  variant : String
  details : String
deriving DecidableEq, Repr

/-- The fixed descriptive text of the Positioned branch. -/
def detailsPositioned : String :=
  "Out-of-flow positioning scheme where the box is removed from normal flow and positioned relative to its containing block. Uses properties like top, left, right, bottom, and z-index. Creates a new positioning context for descendants."

/-- The fixed descriptive text of the Flexbox branch. -/
def detailsFlexbox : String :=
  "A flexible box layout that establishes an independent flex formatting context. Child elements become flex items arranged along main and cross axes. Uses properties like flex-direction, justify-content, align-items, and flex properties on children."

/-- The fixed descriptive text of the Grid branch. -/
def detailsGrid : String :=
  "A grid-based layout that establishes an independent grid formatting context. Child elements become grid items positioned within defined grid cells. Uses properties like grid-template-columns, grid-template-rows, grid-area, and grid-placement properties."

/-- The fixed descriptive text of the Table branch. -/
def detailsTable : String :=
  "Table-based layout that establishes a table formatting context. Elements behave like table parts (rows, cells, etc.). Can create anonymous boxes to ensure proper table structure. Useful for tabular data but less flexible than modern layout methods."

/-- The fixed descriptive text of the Float branch. -/
def detailsFloat : String :=
  "A partially out-of-flow positioning scheme where the box is first laid out in normal flow, then taken out and shifted left or right. Content flows around floated elements. Can be cleared with the clear property. Creates a new block formatting context when contained with display: flow-root."

/-- The fixed descriptive text of the Flow/block branch. -/
def detailsFlowBlock : String :=
  "Standard block-level flow layout in the normal flow - elements stack vertically in the block direction. Creates a block formatting context containing block-level boxes. Takes up the full width available and creates line breaks before and after."

/-- The fixed descriptive text of the Flow/inline branch. -/
def detailsFlowInline : String :=
  "Standard inline-level flow layout in the normal flow - elements flow horizontally with text in the inline direction. Participates in an inline formatting context. Does not create line breaks before or after. Margins/paddings only apply horizontally, not vertically."

/-- The fixed descriptive text of the Flow/inline-block branch. -/
def detailsFlowInlineBlock : String :=
  "Hybrid flow layout - behaves like a block container for its contents but flows inline like an inline element. Creates a block formatting context while participating in the surrounding inline formatting context. Supports vertical margins/padding unlike inline elements."

/-- The fixed descriptive text of the Flow fallback branch. -/
def detailsFlowDefault : String :=
  "Default document flow layout. Part of the normal flow positioning scheme where boxes are laid out one after another in the document\x27s writing mode. May participate in block or inline formatting contexts depending on the display value."

/-- The classifier `evaluateCssLayoutMode` from
`src/entrypoints/devtools-pane/App.svelte`, lines 21-121. Each guard and
each returned record mirrors the corresponding source branch; in the
guarded branches the `Option.getD ""` on the variant is only evaluated
when the guard has established the property is present. -/
def evaluateCssLayoutMode (computedStyles : ComputedStyleSnapshot) : LayoutVerdict :=
  if getStyle computedStyles "position" = some "absolute"
      ∨ getStyle computedStyles "position" = some "fixed"
      ∨ getStyle computedStyles "position" = some "sticky" then
    { mode := "Positioned"
      variant := (getStyle computedStyles "position").getD ""
      details := detailsPositioned }
  else if getStyle computedStyles "display" = some "flex"
      ∨ getStyle computedStyles "display" = some "inline-flex" then
    { mode := "Flexbox"
      variant := (getStyle computedStyles "display").getD ""
      details := detailsFlexbox }
  else if getStyle computedStyles "display" = some "grid"
      ∨ getStyle computedStyles "display" = some "inline-grid" then
    { mode := "Grid"
      variant := (getStyle computedStyles "display").getD ""
      details := detailsGrid }
  else if getStyle computedStyles "display" = some "table"
      ∨ getStyle computedStyles "display" = some "inline-table"
      ∨ getStyle computedStyles "display" = some "table-row"
      ∨ getStyle computedStyles "display" = some "table-cell" then
    { mode := "Table"
      variant := (getStyle computedStyles "display").getD ""
      details := detailsTable }
  else if truthyStr (getStyle computedStyles "float") = true
      ∧ getStyle computedStyles "float" ≠ some "none" then
    { mode := "Float"
      variant := (getStyle computedStyles "float").getD ""
      details := detailsFloat }
  else if getStyle computedStyles "display" = some "block" then
    { mode := "Flow"
      variant := "block"
      details := detailsFlowBlock }
  else if getStyle computedStyles "display" = some "inline" then
    { mode := "Flow"
      variant := "inline"
      details := detailsFlowInline }
  else if getStyle computedStyles "display" = some "inline-block" then
    { mode := "Flow"
      variant := "inline-block"
      details := detailsFlowInlineBlock }
  else
    { mode := "Flow"
      variant := jsOrDefault (getStyle computedStyles "display") "unknown"
      details := detailsFlowDefault }

/-- The nine fixed descriptive strings, one per branch of the classifier. -/
def allDetailsTexts : List String :=
  [detailsPositioned, detailsFlexbox, detailsGrid, detailsTable, detailsFloat,
   detailsFlowBlock, detailsFlowInline, detailsFlowInlineBlock, detailsFlowDefault]

/-- The position value matches none of the three positioned schemes, so
the first branch of the classifier is skipped. -/
abbrev positionNotPositioned (o : Option String) : Prop :=
  o ≠ some "absolute" ∧ o ≠ some "fixed" ∧ o ≠ some "sticky"

/-- The display value matches none of the flex, grid or table branches of
the classifier. -/
abbrev displayNotSpecial (o : Option String) : Prop :=
  o ≠ some "flex" ∧ o ≠ some "inline-flex" ∧ o ≠ some "grid" ∧ o ≠ some "inline-grid" ∧
    o ≠ some "table" ∧ o ≠ some "inline-table" ∧ o ≠ some "table-row" ∧ o ≠ some "table-cell"

/-- The float value is falsy (absent or empty) or equal to none, so the
Float branch of the classifier is skipped. -/
abbrev floatNotActive (o : Option String) : Prop :=
  o = none ∨ o = some "none" ∨ o = some ""

/-- C1: For every snapshot whose position value is absolute, fixed or
sticky, the classifier returns mode Positioned with variant equal to that
position value, regardless of any display value present. -/
theorem positioned_wins (s : ComputedStyleSnapshot) (p : String)
    (hp : getStyle s "position" = some p)
    (hmem : p = "absolute" ∨ p = "fixed" ∨ p = "sticky") :
    evaluateCssLayoutMode s =
      { mode := "Positioned", variant := p, details := detailsPositioned } := by
  unfold evaluateCssLayoutMode
  rw [hp]
  rcases hmem with rfl | rfl | rfl <;> simp

/-- C1 witness: a snapshot with both position sticky and display grid is
classified Positioned/sticky, not Grid. -/
theorem positioned_wins_case :
    evaluateCssLayoutMode [("position", "sticky"), ("display", "grid")] =
      { mode := "Positioned", variant := "sticky", details := detailsPositioned } :=
  positioned_wins [("position", "sticky"), ("display", "grid")] "sticky"
    (by rfl) (Or.inr (Or.inr rfl))

/-- C3: the classifier is a total function over string-to-string
mappings, and the empty snapshot yields Flow with variant unknown and the
default descriptive text. -/
theorem total_on_snapshots :
    (∀ s : ComputedStyleSnapshot, ∃ v : LayoutVerdict, evaluateCssLayoutMode s = v) ∧
      evaluateCssLayoutMode [] =
        { mode := "Flow", variant := "unknown", details := detailsFlowDefault } :=
  ⟨fun _ => ⟨_, rfl⟩, rfl⟩

/-- C5: for every snapshot with position absent or static and display
flex or inline-flex, the classifier returns mode Flexbox with variant
equal to the display value. -/
theorem flexbox_classification (s : ComputedStyleSnapshot) (d : String)
    (hp : getStyle s "position" = none ∨ getStyle s "position" = some "static")
    (hd : getStyle s "display" = some d)
    (hmem : d = "flex" ∨ d = "inline-flex") :
    evaluateCssLayoutMode s =
      { mode := "Flexbox", variant := d, details := detailsFlexbox } := by
  unfold evaluateCssLayoutMode
  rw [hd, if_neg (by rcases hp with h | h <;> rw [h] <;> simp)]
  rcases hmem with rfl | rfl <;> simp

/-- C5 witness: a snapshot with position static and display inline-flex
is classified Flexbox/inline-flex. -/
theorem flexbox_classification_case :
    evaluateCssLayoutMode [("position", "static"), ("display", "inline-flex")] =
      { mode := "Flexbox", variant := "inline-flex", details := detailsFlexbox } :=
  flexbox_classification [("position", "static"), ("display", "inline-flex")]
    "inline-flex" (Or.inr (by rfl)) (by rfl) (Or.inr rfl)

/-- C6: for every snapshot where the Positioned and Flexbox steps do not
match and display is grid or inline-grid, the classifier returns mode
Grid with variant equal to the display value. -/
theorem grid_classification (s : ComputedStyleSnapshot) (d : String)
    (hp : getStyle s "position" ≠ some "absolute" ∧
      getStyle s "position" ≠ some "fixed" ∧ getStyle s "position" ≠ some "sticky")
    (hd : getStyle s "display" = some d)
    (hmem : d = "grid" ∨ d = "inline-grid") :
    evaluateCssLayoutMode s =
      { mode := "Grid", variant := d, details := detailsGrid } := by
  unfold evaluateCssLayoutMode
  rw [hd, if_neg (by simp [hp.1, hp.2.1, hp.2.2])]
  rcases hmem with rfl | rfl <;> simp

/-- C6 witness: a snapshot with position relative and display inline-grid
is classified Grid/inline-grid. -/
theorem grid_classification_case :
    evaluateCssLayoutMode [("position", "relative"), ("display", "inline-grid")] =
      { mode := "Grid", variant := "inline-grid", details := detailsGrid } :=
  grid_classification [("position", "relative"), ("display", "inline-grid")]
    "inline-grid" (by refine ⟨?_, ?_, ?_⟩ <;> decide) (by rfl) (Or.inr rfl)

/-- C7: for every snapshot where the Positioned, Flexbox and Grid steps
do not match and display is a table value, the classifier returns mode
Table with variant equal to the display value, even when a float value
other than none is present, since the table step precedes the float
step. -/
theorem table_classification (s : ComputedStyleSnapshot) (d : String)
    (hp : getStyle s "position" ≠ some "absolute" ∧
      getStyle s "position" ≠ some "fixed" ∧ getStyle s "position" ≠ some "sticky")
    (hd : getStyle s "display" = some d)
    (hmem : d = "table" ∨ d = "inline-table" ∨ d = "table-row" ∨ d = "table-cell") :
    evaluateCssLayoutMode s =
      { mode := "Table", variant := d, details := detailsTable } := by
  unfold evaluateCssLayoutMode
  rw [hd, if_neg (by simp [hp.1, hp.2.1, hp.2.2])]
  rcases hmem with rfl | rfl | rfl | rfl <;> simp

/-- C7 witness: a snapshot with display table-cell and float left is
classified Table/table-cell, not Float. -/
theorem table_classification_case :
    evaluateCssLayoutMode [("display", "table-cell"), ("float", "left")] =
      { mode := "Table", variant := "table-cell", details := detailsTable } :=
  table_classification [("display", "table-cell"), ("float", "left")]
    "table-cell" (by refine ⟨?_, ?_, ?_⟩ <;> decide) (by rfl)
    (Or.inr (Or.inr (Or.inr rfl)))

/-- C8: the classifier is deterministic and stateless: structurally equal
snapshots yield structurally equal verdicts. -/
theorem classify_deterministic (s t : ComputedStyleSnapshot) (h : s = t) :
    evaluateCssLayoutMode s = evaluateCssLayoutMode t := by
  rw [h]

/-- C8 witness: two calls on the same concrete snapshot agree. -/
theorem classify_deterministic_case :
    evaluateCssLayoutMode [("display", "block")] =
      evaluateCssLayoutMode [("display", "block")] :=
  classify_deterministic [("display", "block")] [("display", "block")] rfl

/-- C2 counterexample: the snapshot mapping float to the empty string has
float present with a value other than none and matches none of the first
four steps, yet the classifier falls through to Flow (JavaScript treats
the empty string as falsy), so it does not return mode Float as the claim
requires. -/
theorem float_empty_string_cex :
    getStyle [("float", "")] "float" = some "" ∧ ("" : String) ≠ "none" ∧
      positionNotPositioned (getStyle [("float", "")] "position") ∧
      displayNotSpecial (getStyle [("float", "")] "display") ∧
      (evaluateCssLayoutMode [("float", "")]).mode = "Flow" ∧
      ("Flow" : String) ≠ "Float" := by
  refine ⟨rfl, by decide, by decide, by decide, rfl, by decide⟩

/-- C2 (amended): when the first four steps do not match, the classifier
returns mode Float with variant equal to the float value exactly when
float is present, not none and not the empty string; a float value of
none or the empty string is treated like an absent float and falls
through to the Flow branches. -/
theorem float_classification (s : ComputedStyleSnapshot)
    (hp : positionNotPositioned (getStyle s "position"))
    (hd : displayNotSpecial (getStyle s "display")) :
    (∀ f, getStyle s "float" = some f → f ≠ "none" → f ≠ "" →
      evaluateCssLayoutMode s =
        { mode := "Float", variant := f, details := detailsFloat }) ∧
    (floatNotActive (getStyle s "float") → (evaluateCssLayoutMode s).mode = "Flow") := by
  have h1 : ¬(getStyle s "position" = some "absolute" ∨
      getStyle s "position" = some "fixed" ∨ getStyle s "position" = some "sticky") := by
    simp [hp.1, hp.2.1, hp.2.2]
  have h2 : ¬(getStyle s "display" = some "flex" ∨
      getStyle s "display" = some "inline-flex") := by
    simp [hd.1, hd.2.1]
  have h3 : ¬(getStyle s "display" = some "grid" ∨
      getStyle s "display" = some "inline-grid") := by
    simp [hd.2.2.1, hd.2.2.2.1]
  have h4 : ¬(getStyle s "display" = some "table" ∨
      getStyle s "display" = some "inline-table" ∨
      getStyle s "display" = some "table-row" ∨
      getStyle s "display" = some "table-cell") := by
    simp [hd.2.2.2.2.1, hd.2.2.2.2.2.1, hd.2.2.2.2.2.2.1, hd.2.2.2.2.2.2.2]
  constructor
  · intro f hf hfn hfe
    unfold evaluateCssLayoutMode
    rw [hf, if_neg h1, if_neg h2, if_neg h3, if_neg h4,
      if_pos ⟨by simp [truthyStr, hfe], by simp [hfn]⟩]
    simp
  · intro habs
    have h5 : ¬(truthyStr (getStyle s "float") = true ∧
        getStyle s "float" ≠ some "none") := by
      rcases habs with h | h | h <;> rw [h] <;> simp [truthyStr]
    unfold evaluateCssLayoutMode
    rw [if_neg h1, if_neg h2, if_neg h3, if_neg h4, if_neg h5]
    split_ifs <;> rfl

/-- C2 witness: a snapshot with only float left is classified Float/left,
and a snapshot with only float none falls through to Flow. -/
theorem float_classification_case :
    evaluateCssLayoutMode [("float", "left")] =
      { mode := "Float", variant := "left", details := detailsFloat } ∧
    (evaluateCssLayoutMode [("float", "none")]).mode = "Flow" :=
  ⟨(float_classification [("float", "left")] (by decide) (by decide)).1
      "left" (by rfl) (by decide) (by decide),
   (float_classification [("float", "none")] (by decide) (by decide)).2
      (Or.inr (Or.inl (by rfl)))⟩

/-- C4 counterexample: the snapshot mapping display to the empty string
reaches the fallback with display present, yet the classifier returns
variant unknown rather than the present display value (JavaScript `||`
replaces the falsy empty string with the default). -/
theorem flow_empty_display_cex :
    getStyle [("display", "")] "display" = some "" ∧
      evaluateCssLayoutMode [("display", "")] =
        { mode := "Flow", variant := "unknown", details := detailsFlowDefault } ∧
      ("unknown" : String) ≠ "" := by
  refine ⟨rfl, rfl, by decide⟩

/-- C4 (amended): when the first five steps do not match, the classifier
returns mode Flow, with variant equal to the display value whenever
display is present and non-empty, and variant the literal unknown when
display is missing or the empty string. -/
theorem flow_fallback (s : ComputedStyleSnapshot)
    (hp : positionNotPositioned (getStyle s "position"))
    (hd : displayNotSpecial (getStyle s "display"))
    (hf : floatNotActive (getStyle s "float")) :
    (evaluateCssLayoutMode s).mode = "Flow" ∧
    ((getStyle s "display" = none ∨ getStyle s "display" = some "") →
      (evaluateCssLayoutMode s).variant = "unknown") ∧
    (∀ d, getStyle s "display" = some d → d ≠ "" →
      (evaluateCssLayoutMode s).variant = d) := by
  have h1 : ¬(getStyle s "position" = some "absolute" ∨
      getStyle s "position" = some "fixed" ∨ getStyle s "position" = some "sticky") := by
    simp [hp.1, hp.2.1, hp.2.2]
  have h2 : ¬(getStyle s "display" = some "flex" ∨
      getStyle s "display" = some "inline-flex") := by
    simp [hd.1, hd.2.1]
  have h3 : ¬(getStyle s "display" = some "grid" ∨
      getStyle s "display" = some "inline-grid") := by
    simp [hd.2.2.1, hd.2.2.2.1]
  have h4 : ¬(getStyle s "display" = some "table" ∨
      getStyle s "display" = some "inline-table" ∨
      getStyle s "display" = some "table-row" ∨
      getStyle s "display" = some "table-cell") := by
    simp [hd.2.2.2.2.1, hd.2.2.2.2.2.1, hd.2.2.2.2.2.2.1, hd.2.2.2.2.2.2.2]
  have h5 : ¬(truthyStr (getStyle s "float") = true ∧
      getStyle s "float" ≠ some "none") := by
    rcases hf with h | h | h <;> rw [h] <;> simp [truthyStr]
  refine ⟨?_, ?_, ?_⟩
  · unfold evaluateCssLayoutMode
    rw [if_neg h1, if_neg h2, if_neg h3, if_neg h4, if_neg h5]
    split_ifs <;> rfl
  · intro h
    unfold evaluateCssLayoutMode
    rw [if_neg h1, if_neg h2, if_neg h3, if_neg h4, if_neg h5]
    rcases h with h | h <;> rw [h] <;> simp [jsOrDefault]
  · intro d hdisp hne
    unfold evaluateCssLayoutMode
    rw [if_neg h1, if_neg h2, if_neg h3, if_neg h4, if_neg h5, hdisp]
    split_ifs with hb hi hib <;> simp_all [jsOrDefault]

/-- C4 witness: a snapshot with only display inline-block is classified
Flow/inline-block. -/
theorem flow_fallback_case :
    (evaluateCssLayoutMode [("display", "inline-block")]).mode = "Flow" ∧
    (evaluateCssLayoutMode [("display", "inline-block")]).variant = "inline-block" :=
  ⟨(flow_fallback [("display", "inline-block")] (by decide) (by decide) (Or.inl rfl)).1,
   (flow_fallback [("display", "inline-block")] (by decide) (by decide) (Or.inl rfl)).2.2
      "inline-block" (by rfl) (by decide)⟩

/-- C9: for every snapshot the details field of the verdict is one of
exactly nine fixed constant strings, one per branch; the nine constants
are pairwise distinct and are closed terms, so no part of the details
text is taken from the input snapshot. -/
theorem details_fixed_table :
    (∀ s : ComputedStyleSnapshot,
      (evaluateCssLayoutMode s).details ∈ allDetailsTexts) ∧
      allDetailsTexts.length = 9 ∧ allDetailsTexts.Nodup := by
  refine ⟨?_, rfl, ?_⟩
  · intro s
    unfold evaluateCssLayoutMode
    split_ifs <;> simp [allDetailsTexts]
  · decide

/-- C10: every verdict satisfies the mode-variant consistency invariant:
the mode is one of the six layout-mode names; a Positioned verdict
carries a positioned variant, a Flexbox verdict a flex variant, a Grid
verdict a grid variant, a Table verdict a table variant; a Float verdict
carries a variant that is neither none nor empty; and a Flow verdict
carries a non-empty variant. -/
theorem verdict_mode_variant_invariant (s : ComputedStyleSnapshot) :
    (evaluateCssLayoutMode s).mode ∈
      (["Positioned", "Flexbox", "Grid", "Table", "Float", "Flow"] : List String) ∧
    ((evaluateCssLayoutMode s).mode = "Positioned" →
      (evaluateCssLayoutMode s).variant ∈ (["absolute", "fixed", "sticky"] : List String)) ∧
    ((evaluateCssLayoutMode s).mode = "Flexbox" →
      (evaluateCssLayoutMode s).variant ∈ (["flex", "inline-flex"] : List String)) ∧
    ((evaluateCssLayoutMode s).mode = "Grid" →
      (evaluateCssLayoutMode s).variant ∈ (["grid", "inline-grid"] : List String)) ∧
    ((evaluateCssLayoutMode s).mode = "Table" →
      (evaluateCssLayoutMode s).variant ∈
        (["table", "inline-table", "table-row", "table-cell"] : List String)) ∧
    ((evaluateCssLayoutMode s).mode = "Float" →
      (evaluateCssLayoutMode s).variant ≠ "none" ∧
        (evaluateCssLayoutMode s).variant ≠ "") ∧
    ((evaluateCssLayoutMode s).mode = "Flow" →
      (evaluateCssLayoutMode s).variant ≠ "") := by
  unfold evaluateCssLayoutMode
  split_ifs with h1 h2 h3 h4 h5 h6 h7 h8
  · rcases h1 with h | h | h <;> rw [h] <;> decide
  · rcases h2 with h | h <;> rw [h] <;> decide
  · rcases h3 with h | h <;> rw [h] <;> decide
  · rcases h4 with h | h | h | h <;> rw [h] <;> decide
  · obtain ⟨ht, hn⟩ := h5
    cases hf : getStyle s "float" with
    | none => rw [hf] at ht; simp [truthyStr] at ht
    | some f =>
      rw [hf] at ht hn
      have hfe : f ≠ "" := by simpa [truthyStr] using ht
      have hfn : f ≠ "none" := fun h => hn (by rw [h])
      refine ⟨by simp, by simp, by simp, by simp, by simp,
        fun _ => ⟨by simpa using hfn, by simpa using hfe⟩, by simp⟩
  · decide
  · decide
  · decide
  · refine ⟨by simp, by simp, by simp, by simp, by simp, by simp, fun _ => ?_⟩
    cases hd : getStyle s "display" with
    | none => decide
    | some d =>
      simp only [jsOrDefault]
      split
      · decide
      · next hne => simpa using hne
